import Mathlib

/-!
Verification of the mongodb-ops repository: a shallow embedding of the
connection registry (`getDbClient` / `closeDBConn` / `openDBConn`), the
query/write facade (`getData`, `search`, `writeData`, `writeBulkData`,
`getCollectionCount`) and the pagination normalizer (`parsePagination`),
translated from the JavaScript sources.  Stateful code is modelled by
explicit state passing on a `Registry` (resp. `LibState`) value, and every
interaction with the external document store is recorded in an explicit
trace of `Event`s.  The external store's responses are abstracted by a
`Store` record of response functions, so all definitions stay executable.
-/

namespace MongoDBOps

/-- A JavaScript number as observed by `parsePagination` after the unary `+`
coercion.  The code only ever (a) compares the value with `1` (`< 1`, false
for `NaN`), (b) asks `Number.isInteger`, and (c) does exact integer
arithmetic on integral values; hence only three observational classes
matter: an exact integer, a non-integral number together with whether it is
`< 1` (a non-integral value below 1, e.g. `0.5`, is clamped to the integer
`1` by the code), and `NaN` (the coercion of `undefined` and of
non-numeric strings; every comparison on it is false and it is not an
integer, so it behaves like a non-integral value that is not `< 1`). -/
inductive JNum where
  | int (n : Int)
  | nonint (lt1 : Bool)
  | nan
deriving DecidableEq, Repr

/-- The pagination argument `{ startIndex, endIndex }` after numeric
coercion of both fields (`+startIndex`, `+endIndex`); a missing field
coerces to `NaN`. -/
structure Pagination where
  startIndex : JNum
  endIndex : JNum
deriving DecidableEq, Repr

/-- The clamp `startIndex = startIndex < 1 ? 1 : startIndex` from
`parsePagination`.  `NaN < 1` is false in JavaScript, so `NaN` stays. -/
def clampStart : JNum → JNum
  | JNum.int n => if n < 1 then JNum.int 1 else JNum.int n
  | JNum.nonint lt1 => if lt1 then JNum.int 1 else JNum.nonint false
  | JNum.nan => JNum.nan

/-- `Number.isInteger`, returning the integer value when it is one. -/
def jsInteger : JNum → Option Int
  | JNum.int n => some n
  | _ => none

/-- `parsePagination` from `mongodb-ops.js`: coerces both bounds, clamps the
start below 1 up to 1, and returns `skip`/`limit` (`none` models
`undefined`).  The `limit` uses the clamped start and is floored at 0. -/
def parsePagination (p : Option Pagination) : Option Int × Option Int :=
  let s := clampStart (match p with | some pg => pg.startIndex | none => JNum.nan)
  let e := match p with | some pg => pg.endIndex | none => JNum.nan
  ((jsInteger s).map (fun n => n - 1),
   match jsInteger s, jsInteger e with
   | some si, some ei => some (if ei - si + 1 < 0 then 0 else ei - si + 1)
   | _, _ => none)

/-- The JavaScript comparison `limit < 1` where `limit` may be `undefined`
(`undefined < 1` is false). -/
def limitLtOne : Option Int → Bool
  | some l => decide (l < 1)
  | none => false

/-- A BSON-like document value: the queries, filters, projections, sort
specs, pipeline stages and write payloads the facade passes around.
`nanNum`, `infNum` and `negInfNum` stand for the JavaScript numbers `NaN`,
`Infinity` and `-Infinity` that can arise in the `$facet` page
computation. -/
inductive Doc where
  | str (s : String)
  | num (n : Int)
  | nanNum
  | infNum
  | negInfNum
  | obj (fields : List (String × Doc))
  | arr (elems : List Doc)

/-- A cached MongoClient handle: the connection string it was created from
(`item.s.url`), whether `item.topology.s.state === "connected"`, and a
serial number identifying the underlying connection object (so that
"same underlying handle" is expressible). -/
structure Client where
  url : String
  connected : Bool
  id : Nat
deriving DecidableEq, Repr

/-- The process-wide registry `MongoDBOps.dbClientList` together with the
next fresh connection serial number.  An uninitialized
`MongoDBOps.dbClientList` is modelled by the empty list. -/
structure Registry where
  list : List Client
  nextId : Nat
deriving DecidableEq, Repr

/-- The cursor configuration a `find`-mode `getData` call hands to the
driver: `find(queryExp, {projection})` then the optional `.sort`,
`.skip(skip).limit(limit)` (applied whenever the pagination argument is
truthy, with `none` components standing for `undefined`), and the optional
`.collation`. -/
structure FindPlan where
  query : Doc
  projection : Doc
  sort : Option Doc
  skipLimit : Option (Option Int × Option Int)
  collation : Option Doc

/-- One interaction with the external document store: a driver connect, a
close, or a query/write issued on a collection. -/
inductive Event where
  | connect (url : String) (id : Nat)
  | connectPool (url : String) (id : Nat) (poolSize : Nat)
  | close (id : Nat)
  | aggregate (coll : String) (pipeline : Option Doc) (options : Option Doc)
  | countDocuments (coll : String) (query : Doc)
  | estimatedCount (coll : String)
  | find (coll : String) (plan : FindPlan)
  | insertOne (coll : String) (doc : Option Doc)
  | replaceOne (coll : String) (filter : Option Doc) (doc : Option Doc)
  | updateOne (coll : String) (filter : Option Doc) (doc : Option Doc)
  | updateMany (coll : String) (filter : Option Doc) (doc : Option Doc)
  | deleteOne (coll : String) (filter : Option Doc)
  | deleteMany (coll : String) (filter : Option Doc)
  | bulkWrite (coll : String) (ops : List Doc) (ordered : Bool)

/-- The external store's responses, abstracted as total response functions
(reads) and fallible responses (writes, whose failure payload is the
already-unwrapped `err.errmsg || err.message` / `err.result || ...` value
the facade rejects with).  Connecting is modelled as always succeeding;
store-side connect failures are outside the claims considered here. -/
structure Store where
  findRes : String → FindPlan → List Doc
  countRes : String → Doc → Nat
  estCountRes : String → Nat
  aggRes : String → Option Doc → Option Doc → List Doc
  writeRes : String → String → Option Doc → Option Doc → Except String Doc
  bulkRes : String → List Doc → Bool → Except String Doc

/-- `MongoDBOps.getDbClient` from `mongodb-ops.js` (the multi-client
version).  An empty/absent connection string (both falsy in JavaScript,
modelled by `""`) throws synchronously.  Otherwise the registry list is
scanned for the first entry whose `s.url` matches; a connected entry is
returned as-is (no store interaction), while a disconnected entry triggers
`item = await MongoClient.connect(connString)` — which only rebinds the
`for...of` loop variable, so the new client is returned but the stale list
entry is left in place and the new client is never registered.  With no
matching entry, a new client is connected and pushed. -/
def getDbClient (st : Registry) (connString : String) :
    List Event × Registry × Except String Client :=
  if connString = "" then ([], st, Except.error "missing-connection-string")
  else
    match st.list.find? (fun c => c.url == connString) with
    | some item =>
      if item.connected then ([], st, Except.ok item)
      else
        ([Event.connect connString st.nextId], ⟨st.list, st.nextId + 1⟩,
         Except.ok ⟨connString, true, st.nextId⟩)
    | none =>
      ([Event.connect connString st.nextId],
       ⟨st.list ++ [⟨connString, true, st.nextId⟩], st.nextId + 1⟩,
       Except.ok ⟨connString, true, st.nextId⟩)

/-- `MongoDBOps.closeDBConn` from `mongodb-ops.js` (the multi-client
version): awaits `item.close()` on every cached client.  The list itself is
never cleared, so the now-closed clients remain registered. -/
def closeDBConn (st : Registry) : List Event × Registry :=
  (st.list.map (fun c => Event.close c.id),
   ⟨st.list.map (fun c => ⟨c.url, false, c.id⟩), st.nextId⟩)

/-- Result of a `getData` call: a document array, or an integer count when
`isGetCount` is set. -/
inductive GetDataResult where
  | docs (ds : List Doc)
  | count (n : Nat)

/-- Result of a `search` call: a plain array, or — when `isGetCount` is
true — the single combined record `result[0]` (`none` models `undefined`
when the aggregation returned no document). -/
inductive SearchResult where
  | arr (ds : List Doc)
  | single (d : Option Doc)

/-- `MongoDBOps.getData` from `mongodb-ops.js` (the multi-client version),
with the store's responses supplied by `store` and the registry threaded
explicitly.  The client is acquired first; aggregation mode passes
`queryExp` and `options` through unchanged; count mode defaults the query;
find mode normalizes pagination, short-circuits to `[]` when
`limit < 1` (false for an `undefined` limit), and otherwise builds the
cursor: default projection wrapper, optional sort, `.skip(skip)
.limit(limit)` whenever the pagination argument is truthy, optional
collation. -/
def getData (store : Store) (st : Registry) (collectionName : String)
    (queryExp : Option Doc) (isAggregate : Bool) (projection : Option Doc)
    (sort : Option Doc) (pagination : Option Pagination) (isGetCount : Bool)
    (connString : String) (collation : Option Doc) (options : Option Doc) :
    List Event × Registry × Except String GetDataResult :=
  match getDbClient st connString with
  | (ev, st2, Except.error e) => (ev, st2, Except.error e)
  | (ev, st2, Except.ok _) =>
    if isAggregate then
      (ev ++ [Event.aggregate collectionName queryExp options], st2,
       Except.ok (GetDataResult.docs (store.aggRes collectionName queryExp options)))
    else
      let q := queryExp.getD (Doc.obj [])
      if isGetCount then
        (ev ++ [Event.countDocuments collectionName q], st2,
         Except.ok (GetDataResult.count (store.countRes collectionName q)))
      else
        let sl := parsePagination pagination
        if limitLtOne sl.2 then (ev, st2, Except.ok (GetDataResult.docs []))
        else
          let plan : FindPlan :=
            { query := q
              projection := Doc.obj [("projection", projection.getD (Doc.obj []))]
              sort := sort
              skipLimit := if pagination.isSome then some sl else none
              collation := collation }
          (ev ++ [Event.find collectionName plan], st2,
           Except.ok (GetDataResult.docs (store.findRes collectionName plan)))

/-- The integer value of `Math.ceil((skip + 1) / limit)` for a nonzero
integer `limit` (the only reachable case inside `search`, where
`limit ≥ 1`). -/
def jsMathCeilDiv (a b : Int) : Int :=
  if 0 < b then -((-a).fdiv b) else -(a.fdiv (-b))

/-- The `page: Math.ceil((skip + 1) / limit)` value placed in the `$facet`
metadata stage; an `undefined` skip or limit makes it `NaN`, and a zero
limit would make it infinite. -/
def pageDoc (skip limit : Option Int) : Doc :=
  match skip, limit with
  | some s, some l =>
    if l = 0 then
      (if 0 < s + 1 then Doc.infNum else if s + 1 < 0 then Doc.negInfNum else Doc.nanNum)
    else Doc.num (jsMathCeilDiv (s + 1) l)
  | _, _ => Doc.nanNum

/-- The aggregation pipeline `search` builds: `$search`, the `$addFields`
score stage, optional `$project` and `$sort`, then either the `$facet`
stage (when `isGetCount`) or the plain skip/limit stages.  A `$skip` stage
is pushed only when `skip` is truthy (so not for `0` or `undefined`), a
`$limit` stage only when `limit` is truthy. -/
def searchPayload (sd : Doc) (projection sort : Option Doc)
    (skip limit : Option Int) (isGetCount : Bool) : List Doc :=
  let base := [Doc.obj [("$search", sd)],
    Doc.obj [("$addFields", Doc.obj [("score", Doc.obj [("$meta", Doc.str "searchScore")])])]]
  let p1 := base ++ (match projection with
    | some pr => [Doc.obj [("$project", pr)]]
    | none => [])
  let p2 := p1 ++ (match sort with
    | some so => [Doc.obj [("$sort", so)]]
    | none => [])
  let skipLimit :=
    (match skip with
      | some s => if s ≠ 0 then [Doc.obj [("$skip", Doc.num s)]] else []
      | none => [])
    ++ (match limit with
      | some l => if l ≠ 0 then [Doc.obj [("$limit", Doc.num l)]] else []
      | none => [])
  if isGetCount then
    p2 ++ [Doc.obj [("$facet", Doc.obj [
      ("metadata", Doc.arr [Doc.obj [("$count", Doc.str "total")],
        Doc.obj [("$addFields", Doc.obj [("page", pageDoc skip limit)])]]),
      ("data", Doc.arr skipLimit)])]]
  else p2 ++ skipLimit

/-- `MongoDBOps.search` from `mongodb-ops.js`.  Rejects when the connection
string, collection name or search object is `undefined` (modelled by
`none`; an empty — but defined — connection string passes this check and
fails later inside `getDbClient`).  Short-circuits to an empty array when
the normalized `limit` is `< 1`, before any store interaction.  Otherwise
runs the payload through `getData` in aggregation mode and returns
`result[0]` when `isGetCount` is true, else the whole array. -/
def search (store : Store) (st : Registry) (connString : Option String)
    (collectionName : Option String) (searchDoc : Option Doc)
    (projection sort : Option Doc) (pagination : Option Pagination)
    (isGetCount : Bool) : List Event × Registry × Except String SearchResult :=
  match connString, collectionName, searchDoc with
  | some cs, some cn, some sd =>
    let sl := parsePagination pagination
    if limitLtOne sl.2 then ([], st, Except.ok (SearchResult.arr []))
    else
      let payload := searchPayload sd projection sort sl.1 sl.2 isGetCount
      match getData store st cn (some (Doc.arr payload)) true none none none false cs none none with
      | (ev, st2, Except.error e) => (ev, st2, Except.error e)
      | (ev, st2, Except.ok r) =>
        -- aggregation mode always yields `GetDataResult.docs`; the `count`
        -- case below is unreachable from this call site.
        let ds := match r with
          | GetDataResult.docs l => l
          | GetDataResult.count _ => []
        (ev, st2,
         Except.ok (if isGetCount then SearchResult.single ds.head? else SearchResult.arr ds))
  | _, _, _ =>
    ([], st, Except.error "Connection string, collection name and search cannot be undefined")

/-- `MongoDBOps.writeData` from `mongodb-ops.js`.  The whole body sits in a
`try`: the client is acquired first (its `missing-connection-string` throw
is caught and rejected as the error message), then the `type` switch
dispatches to the matching store primitive; an unrecognized type throws
`invalid-writeData-type` after the client was already acquired. -/
def writeData (store : Store) (st : Registry) (type collectionName : String)
    (doc filter : Option Doc) (connString : String) :
    List Event × Registry × Except String Doc :=
  match getDbClient st connString with
  | (ev, st2, Except.error e) => (ev, st2, Except.error e)
  | (ev, st2, Except.ok _) =>
    if type = "insertOne" then
      (ev ++ [Event.insertOne collectionName doc], st2,
       store.writeRes "insertOne" collectionName doc filter)
    else if type = "replaceOne" then
      (ev ++ [Event.replaceOne collectionName filter doc], st2,
       store.writeRes "replaceOne" collectionName doc filter)
    else if type = "updateOne" then
      (ev ++ [Event.updateOne collectionName filter doc], st2,
       store.writeRes "updateOne" collectionName doc filter)
    else if type = "updateMany" then
      (ev ++ [Event.updateMany collectionName filter doc], st2,
       store.writeRes "updateMany" collectionName doc filter)
    else if type = "deleteOne" then
      (ev ++ [Event.deleteOne collectionName filter], st2,
       store.writeRes "deleteOne" collectionName doc filter)
    else if type = "deleteMany" then
      (ev ++ [Event.deleteMany collectionName filter], st2,
       store.writeRes "deleteMany" collectionName doc filter)
    else (ev, st2, Except.error "invalid-writeData-type")

/-- The per-element wrapping each recognized bulk kind applies to the
caller's `docs` array (`allBulk` and unrecognized kinds leave elements
unchanged). -/
def wrapBulkOne (type : String) (d : Doc) : Doc :=
  if type = "insertBulk" then Doc.obj [("insertOne", Doc.obj [("document", d)])]
  else if type = "replaceBulk" then Doc.obj [("replaceOne", d)]
  else if type = "updateBulk" then Doc.obj [("updateOne", d)]
  else if type = "deleteBulk" then Doc.obj [("deleteOne", d)]
  else d

/-- `MongoDBOps.writeBulkData` from `mongodb-ops.js`.  After acquiring the
client, the switch mutates the caller's `docs` array in place, wrapping
each element into the tagged single-operation descriptor (`allBulk` leaves
it untouched; an unrecognized type throws before any wrapping), then calls
`bulkWrite(docs, {ordered})`.  The third component of the result is the
content of the caller's array when the call returns — it is the wrapped
array whether the store's `bulkWrite` succeeds or fails. -/
def writeBulkData (store : Store) (st : Registry) (type collectionName : String)
    (docs : List Doc) (ordered : Bool) (connString : String) :
    List Event × Registry × List Doc × Except String Doc :=
  match getDbClient st connString with
  | (ev, st2, Except.error e) => (ev, st2, docs, Except.error e)
  | (ev, st2, Except.ok _) =>
    let go := fun (docs2 : List Doc) =>
      (ev ++ [Event.bulkWrite collectionName docs2 ordered], st2, docs2,
       store.bulkRes collectionName docs2 ordered)
    if type = "insertBulk" then
      go (docs.map (fun d => Doc.obj [("insertOne", Doc.obj [("document", d)])]))
    else if type = "replaceBulk" then go (docs.map (fun d => Doc.obj [("replaceOne", d)]))
    else if type = "updateBulk" then go (docs.map (fun d => Doc.obj [("updateOne", d)]))
    else if type = "deleteBulk" then go (docs.map (fun d => Doc.obj [("deleteOne", d)]))
    else if type = "allBulk" then go docs
    else (ev, st2, docs, Except.error "invalid-writeBulkData-type")

/-- Static `MongoDBOps.getCollectionCount`: acquires the client and calls
`estimatedDocumentCount()` on the collection. -/
def getCollectionCount (store : Store) (st : Registry)
    (collectionName connString : String) :
    List Event × Registry × Except String Nat :=
  match getDbClient st connString with
  | (ev, st2, Except.error e) => (ev, st2, Except.error e)
  | (ev, st2, Except.ok _) =>
    (ev ++ [Event.estimatedCount collectionName], st2,
     Except.ok (store.estCountRes collectionName))

/-- Instance `MongoDBOps.getCollectionCount`, translated as written: its
body is `MongoDBOps.getData(collectionName, this.connString)`, so the
instance's connection string lands in the `queryExp` position, every later
parameter — including the `connString` parameter itself — is `undefined`
(falsy, modelled by `""` / `none` / `false`). -/
def getCollectionCountInstance (store : Store) (st : Registry)
    (connString collectionName : String) :
    List Event × Registry × Except String GetDataResult :=
  getData store st collectionName (some (Doc.str connString)) false none none none false "" none none

/-- `DEFAULT_POOLSIZE` from `lib/mongodb-ops.js`. -/
def DEFAULT_POOLSIZE : Nat := 5

/-- The static state of the single-client `lib/mongodb-ops.js` variant:
`MongoDBOps.dbClient` plus the optional static `MongoDBOps.poolSize`
override (`0` models an unset/falsy value), and the fresh-serial
counter. -/
structure LibState where
  dbClient : Option Client
  poolSizeStatic : Nat
  nextId : Nat
deriving DecidableEq, Repr

/-- The guard `MongoDBOps.dbClient && MongoDBOps.dbClient.topology.s.state
=== "connected"` of the single-client variant. -/
def cachedConnected (st : LibState) : Bool :=
  match st.dbClient with
  | some c => c.connected
  | none => false

/-- `MongoDBOps.openDBConn` from `lib/mongodb-ops.js`: returns immediately
when a connected client is already cached — this check precedes the
missing-connection-string check — then validates the connection string and
connects with the effective pool size. -/
def openDBConn (st : LibState) (connString : String) (poolSize : Nat) :
    List Event × LibState × Except String Unit :=
  if cachedConnected st then ([], st, Except.ok ())
  else if connString = "" then ([], st, Except.error "missing-connection-string")
  else
    let eff := if poolSize ≠ DEFAULT_POOLSIZE then poolSize
      else if st.poolSizeStatic = 0 then DEFAULT_POOLSIZE else st.poolSizeStatic
    ([Event.connectPool connString st.nextId eff],
     ⟨some ⟨connString, true, st.nextId⟩, st.poolSizeStatic, st.nextId + 1⟩,
     Except.ok ())

/-- A concrete store double used by the closed example theorems: it records
nothing and answers every read with a fixed value. -/
def store0 : Store :=
  { findRes := fun _ _ => []
    countRes := fun _ _ => 0
    estCountRes := fun _ => 7
    aggRes := fun _ _ _ => []
    writeRes := fun _ _ _ _ => Except.ok (Doc.obj [])
    bulkRes := fun _ _ _ => Except.ok (Doc.obj []) }

/-- C1: for pagination inputs with both bounds present and integral,
`parsePagination` yields `skip = max(startIndex,1) - 1` and
`limit = max(endIndex - max(startIndex,1) + 1, 0)`; in particular
`{startIndex:11, endIndex:20}` gives `skip=10, limit=10` and
`{startIndex:5, endIndex:3}` gives `limit=0`. -/
theorem c1_pagination_normalization :
    (∀ s e : Int, parsePagination (some ⟨JNum.int s, JNum.int e⟩)
      = (some (max s 1 - 1), some (max (e - max s 1 + 1) 0))) ∧
    parsePagination (some ⟨JNum.int 11, JNum.int 20⟩) = (some 10, some 10) ∧
    parsePagination (some ⟨JNum.int 5, JNum.int 3⟩) = (some 4, some 0) := by
  refine ⟨?_, by decide, by decide⟩
  intro s e
  simp only [parsePagination, clampStart, jsInteger]
  by_cases h : s < 1
  · simp only [if_pos h, Option.map_some', Prod.mk.injEq, Option.some.injEq]
    refine ⟨by omega, ?_⟩
    split <;> omega
  · simp only [if_neg h, Option.map_some', Prod.mk.injEq, Option.some.injEq]
    refine ⟨by omega, ?_⟩
    split <;> omega

/-- With a nonempty connection string, `getDbClient` never fails: every
branch after the falsy check returns `Except.ok`. -/
theorem getDbClient_ne_error (st : Registry) (conn : String) (h : conn ≠ "")
    (e : String) : (getDbClient st conn).2.2 ≠ Except.error e := by
  unfold getDbClient
  rw [if_neg h]
  cases hf : st.list.find? (fun c => c.url == conn) with
  | none => simp
  | some item => by_cases hc : item.connected <;> simp [hc]

/-- C2 counterexample: a `find`-mode `getData` whose pagination resolves to
`limit = 0` (here `{startIndex:5, endIndex:3}`), run against an empty
registry, returns the empty sequence but its store trace contains a
connect — `getData` acquires the client before the limit check, so the
claim's "no connection is acquired" is false. -/
theorem c2_counterexample :
    getData store0 ⟨[], 0⟩ "items" none false none none
        (some ⟨JNum.int 5, JNum.int 3⟩) false "mongodb://a" none none
      = ([Event.connect "mongodb://a" 0], ⟨[⟨"mongodb://a", true, 0⟩], 1⟩,
         Except.ok (GetDataResult.docs [])) ∧
    (getData store0 ⟨[], 0⟩ "items" none false none none
        (some ⟨JNum.int 5, JNum.int 3⟩) false "mongodb://a" none none).1 ≠ [] := by
  refine ⟨rfl, ?_⟩
  intro h
  have h2 : ([Event.connect "mongodb://a" 0] : List Event) = [] := h
  exact List.cons_ne_nil _ _ h2

/-- C2 amended: when the pagination resolves to `limit = 0`, a `find`-mode
`getData` returns the empty sequence and issues no query — but only after
running the client acquisition (whose trace and registry update it keeps);
`search` by contrast short-circuits before any store interaction at
all. -/
theorem c2_amended :
    (∀ (store : Store) (st : Registry) (coll : String) (q proj srt : Option Doc)
       (p : Option Pagination) (conn : String) (colla opts : Option Doc),
       conn ≠ "" → (parsePagination p).2 = some 0 →
       getData store st coll q false proj srt p false conn colla opts
         = ((getDbClient st conn).1, (getDbClient st conn).2.1,
            Except.ok (GetDataResult.docs []))) ∧
    (∀ (store : Store) (st : Registry) (cs cn : String) (sd : Doc)
       (proj srt : Option Doc) (p : Option Pagination) (igc : Bool),
       (parsePagination p).2 = some 0 →
       search store st (some cs) (some cn) (some sd) proj srt p igc
         = ([], st, Except.ok (SearchResult.arr []))) := by
  constructor
  · intro store st coll q proj srt p conn colla opts hconn hlim
    rcases hg : getDbClient st conn with ⟨ev, st2, res⟩
    cases res with
    | error e =>
      have he : (getDbClient st conn).2.2 = Except.error e := by rw [hg]
      exact absurd he (getDbClient_ne_error st conn hconn e)
    | ok c => simp [getData, hg, hlim, limitLtOne]
  · intro store st cs cn sd proj srt p igc hlim
    simp [search, hlim, limitLtOne]

/-- C2 witness: the amended statement applied to a concrete limit-0 read
(`{startIndex:2, endIndex:1}`) and search. -/
theorem c2_witness :
    getData store0 ⟨[], 0⟩ "w" none false none none
        (some ⟨JNum.int 2, JNum.int 1⟩) false "mongodb://w" none none
      = ((getDbClient ⟨[], 0⟩ "mongodb://w").1, (getDbClient ⟨[], 0⟩ "mongodb://w").2.1,
         Except.ok (GetDataResult.docs [])) ∧
    search store0 ⟨[], 0⟩ (some "mongodb://w") (some "w") (some (Doc.obj []))
        none none (some ⟨JNum.int 2, JNum.int 1⟩) true
      = ([], ⟨[], 0⟩, Except.ok (SearchResult.arr [])) :=
  ⟨c2_amended.1 store0 ⟨[], 0⟩ "w" none none none (some ⟨JNum.int 2, JNum.int 1⟩)
      "mongodb://w" none none (by decide) (by decide),
   c2_amended.2 store0 ⟨[], 0⟩ "mongodb://w" "w" (Doc.obj []) none none
      (some ⟨JNum.int 2, JNum.int 1⟩) true (by decide)⟩

/-- C3 (bug evidence): acquiring a client for a connection string whose
cached handle is disconnected connects a fresh client (serial 1) and
returns it, but the registry still holds the stale disconnected handle
(serial 0) and the fresh client was never stored — the `for...of`
assignment `item = await MongoClient.connect(connString)` only rebinds the
loop variable.  A second acquire therefore connects yet another client
(serial 2) instead of reusing one replaced in place. -/
theorem c3_stale_handle_not_replaced :
    getDbClient ⟨[⟨"mongodb://a", false, 0⟩], 1⟩ "mongodb://a"
      = ([Event.connect "mongodb://a" 1], ⟨[⟨"mongodb://a", false, 0⟩], 2⟩,
         Except.ok ⟨"mongodb://a", true, 1⟩) ∧
    getDbClient ⟨[⟨"mongodb://a", false, 0⟩], 2⟩ "mongodb://a"
      = ([Event.connect "mongodb://a" 2], ⟨[⟨"mongodb://a", false, 0⟩], 3⟩,
         Except.ok ⟨"mongodb://a", true, 2⟩) := ⟨rfl, rfl⟩

/-- C4 counterexample: closing the registry with one cached client closes
that client but leaves it in `dbClientList` — the registry is not left
empty. -/
theorem c4_counterexample :
    (closeDBConn ⟨[⟨"mongodb://a", true, 0⟩], 1⟩).2
      = ⟨[⟨"mongodb://a", false, 0⟩], 1⟩ ∧
    (closeDBConn ⟨[⟨"mongodb://a", true, 0⟩], 1⟩).2.list ≠ [] := by
  refine ⟨rfl, ?_⟩
  intro h
  have h2 : ([(⟨"mongodb://a", false, 0⟩ : Client)] : List Client) = [] := h
  exact List.cons_ne_nil _ _ h2

/-- C4 amended: `closeDBConn` closes every cached handle but leaves the
(now closed) handles in the registry; the resulting registry state is a
fixed point, so a second call reaches the same state (re-issuing the
closes), and on an empty registry the call is a no-op. -/
theorem c4_amended :
    (∀ st : Registry,
      (closeDBConn st).1 = st.list.map (fun c => Event.close c.id) ∧
      (closeDBConn st).2.list
        = st.list.map (fun c => (⟨c.url, false, c.id⟩ : Client)) ∧
      (closeDBConn (closeDBConn st).2).2 = (closeDBConn st).2) ∧
    (∀ n : Nat, closeDBConn ⟨[], n⟩ = ([], ⟨[], n⟩)) := by
  refine ⟨?_, fun n => rfl⟩
  intro st
  refine ⟨rfl, rfl, ?_⟩
  simp only [closeDBConn, List.map_map]
  rfl

/-- C5 counterexample: in the single-client variant, `openDBConn` checks
for an already-connected cached client before validating the connection
string, so with a connected client cached a call with the empty string
succeeds instead of failing with `missing-connection-string`. -/
theorem c5_counterexample :
    openDBConn ⟨some ⟨"mongodb://a", true, 0⟩, 0, 1⟩ "" DEFAULT_POOLSIZE
      = ([], ⟨some ⟨"mongodb://a", true, 0⟩, 0, 1⟩, Except.ok ()) ∧
    ∀ e, (openDBConn ⟨some ⟨"mongodb://a", true, 0⟩, 0, 1⟩ "" DEFAULT_POOLSIZE).2.2
      ≠ Except.error e := by
  refine ⟨rfl, ?_⟩
  intro e h
  have h2 : (Except.ok () : Except String Unit) = Except.error e := h
  exact Except.noConfusion h2

/-- C5 amended: `getDbClient` does fail synchronously (no store event) with
`missing-connection-string` on an empty/absent connection string regardless
of registry state; `openDBConn` does so only when no connected client is
cached — when one is cached it returns successfully despite the empty
string. -/
theorem c5_amended :
    (∀ st : Registry,
       getDbClient st "" = ([], st, Except.error "missing-connection-string")) ∧
    (∀ st : LibState, cachedConnected st = false →
       ∀ ps, openDBConn st "" ps = ([], st, Except.error "missing-connection-string")) ∧
    (∀ st : LibState, cachedConnected st = true →
       ∀ cs ps, openDBConn st cs ps = ([], st, Except.ok ())) := by
  refine ⟨fun st => rfl, ?_, ?_⟩
  · intro st h ps
    simp [openDBConn, h]
  · intro st h cs ps
    simp [openDBConn, h]

/-- C5 witness: the amended statement applied to an empty single-client
state and to a state caching a connected client. -/
theorem c5_witness :
    openDBConn ⟨none, 0, 0⟩ "" DEFAULT_POOLSIZE
      = ([], ⟨none, 0, 0⟩, Except.error "missing-connection-string") ∧
    openDBConn ⟨some ⟨"mongodb://b", true, 3⟩, 0, 4⟩ "" 9
      = ([], ⟨some ⟨"mongodb://b", true, 3⟩, 0, 4⟩, Except.ok ()) :=
  ⟨c5_amended.2.1 ⟨none, 0, 0⟩ rfl DEFAULT_POOLSIZE,
   c5_amended.2.2 ⟨some ⟨"mongodb://b", true, 3⟩, 0, 4⟩ rfl "" 9⟩

/-- C6 counterexample: a write (and a bulk write) with an unrecognized kind
does fail with the invalid-type error, but its store trace already contains
the connect performed by the client acquisition that precedes the kind
dispatch — contradicting "before any interaction with the external store
occurs". -/
theorem c6_counterexample :
    writeData store0 ⟨[], 0⟩ "bogusKind" "items" none none "mongodb://a"
      = ([Event.connect "mongodb://a" 0], ⟨[⟨"mongodb://a", true, 0⟩], 1⟩,
         Except.error "invalid-writeData-type") ∧
    (writeData store0 ⟨[], 0⟩ "bogusKind" "items" none none "mongodb://a").1 ≠ [] ∧
    writeBulkData store0 ⟨[], 0⟩ "bogusKind" "items" [] false "mongodb://a"
      = ([Event.connect "mongodb://a" 0], ⟨[⟨"mongodb://a", true, 0⟩], 1⟩, [],
         Except.error "invalid-writeBulkData-type") ∧
    (writeBulkData store0 ⟨[], 0⟩ "bogusKind" "items" [] false "mongodb://a").1 ≠ [] := by
  refine ⟨rfl, ?_, rfl, ?_⟩ <;>
  · intro h
    have h2 : ([Event.connect "mongodb://a" 0] : List Event) = [] := h
    exact List.cons_ne_nil _ _ h2

/-- C6 amended: for any kind outside the recognized write (resp. bulk)
kinds, `writeData` and `writeBulkData` fail with the invalid-type error and
issue no write or bulk operation to the store — but the client acquisition
(and its possible connect) happens first, and the caller's docs array is
left unwrapped. -/
theorem c6_amended :
    (∀ (store : Store) (st : Registry) (ty coll : String) (doc filt : Option Doc)
       (conn : String), conn ≠ "" →
       ty ∉ (["insertOne", "replaceOne", "updateOne", "updateMany", "deleteOne",
          "deleteMany"] : List String) →
       writeData store st ty coll doc filt conn
         = ((getDbClient st conn).1, (getDbClient st conn).2.1,
            Except.error "invalid-writeData-type")) ∧
    (∀ (store : Store) (st : Registry) (ty coll : String) (docs : List Doc)
       (ord : Bool) (conn : String), conn ≠ "" →
       ty ∉ (["insertBulk", "replaceBulk", "updateBulk", "deleteBulk",
          "allBulk"] : List String) →
       writeBulkData store st ty coll docs ord conn
         = ((getDbClient st conn).1, (getDbClient st conn).2.1, docs,
            Except.error "invalid-writeBulkData-type")) := by
  constructor
  · intro store st ty coll doc filt conn hconn hty
    simp only [List.mem_cons, List.not_mem_nil, or_false, not_or] at hty
    obtain ⟨h1, h2, h3, h4, h5, h6⟩ := hty
    rcases hg : getDbClient st conn with ⟨ev, st2, res⟩
    cases res with
    | error e =>
      have he : (getDbClient st conn).2.2 = Except.error e := by rw [hg]
      exact absurd he (getDbClient_ne_error st conn hconn e)
    | ok c => simp [writeData, hg, h1, h2, h3, h4, h5, h6]
  · intro store st ty coll docs ord conn hconn hty
    simp only [List.mem_cons, List.not_mem_nil, or_false, not_or] at hty
    obtain ⟨h1, h2, h3, h4, h5⟩ := hty
    rcases hg : getDbClient st conn with ⟨ev, st2, res⟩
    cases res with
    | error e =>
      have he : (getDbClient st conn).2.2 = Except.error e := by rw [hg]
      exact absurd he (getDbClient_ne_error st conn hconn e)
    | ok c => simp [writeBulkData, hg, h1, h2, h3, h4, h5]

/-- C6 witness: the amended statement applied to the kind `"bogus"` on an
empty registry. -/
theorem c6_witness :
    writeData store0 ⟨[], 0⟩ "bogus" "c" none none "mongodb://a"
      = ((getDbClient ⟨[], 0⟩ "mongodb://a").1, (getDbClient ⟨[], 0⟩ "mongodb://a").2.1,
         Except.error "invalid-writeData-type") ∧
    writeBulkData store0 ⟨[], 0⟩ "bogus" "c" [Doc.num 1] true "mongodb://a"
      = ((getDbClient ⟨[], 0⟩ "mongodb://a").1, (getDbClient ⟨[], 0⟩ "mongodb://a").2.1,
         [Doc.num 1], Except.error "invalid-writeBulkData-type") :=
  ⟨c6_amended.1 store0 ⟨[], 0⟩ "bogus" "c" none none "mongodb://a" (by decide) (by decide),
   c6_amended.2 store0 ⟨[], 0⟩ "bogus" "c" [Doc.num 1] true "mongodb://a" (by decide)
     (by decide)⟩

/-- C7 counterexample: a pagination whose `startIndex` is non-integral but
below 1 (e.g. `0.5`) is clamped to the integer `1`, so the read is *not*
treated as unpaginated: `{startIndex:0.5, endIndex:3}` yields a bounded
query with `skip = 0` and `limit = 3` applied, and the resulting trace is
not the unbounded query of the claim for any plan without skip/limit. -/
theorem c7_counterexample :
    parsePagination (some ⟨JNum.nonint true, JNum.int 3⟩) = (some 0, some 3) ∧
    (getData store0 ⟨[], 0⟩ "items" none false none none
        (some ⟨JNum.nonint true, JNum.int 3⟩) false "mongodb://a" none none).1
      = [Event.connect "mongodb://a" 0,
         Event.find "items"
           ⟨Doc.obj [], Doc.obj [("projection", Doc.obj [])], none,
            some (some 0, some 3), none⟩] ∧
    ∀ (q pr : Doc) (so col : Option Doc),
      (getData store0 ⟨[], 0⟩ "items" none false none none
          (some ⟨JNum.nonint true, JNum.int 3⟩) false "mongodb://a" none none).1
        ≠ [Event.connect "mongodb://a" 0, Event.find "items" ⟨q, pr, so, none, col⟩] := by
  refine ⟨rfl, rfl, ?_⟩
  intro q pr so col h
  have h2 : ([Event.connect "mongodb://a" 0,
      Event.find "items"
        ⟨Doc.obj [], Doc.obj [("projection", Doc.obj [])], none,
         some (some 0, some 3), none⟩] : List Event)
      = [Event.connect "mongodb://a" 0, Event.find "items" ⟨q, pr, so, none, col⟩] := h
  simp at h2

/-- C7 amended: a `find`-mode read is unbounded (no skip/limit on the
cursor) exactly when the pagination object itself is absent; when the
object is present (and the normalized limit is not `< 1`), the cursor
always carries `.skip(skip).limit(limit)` with the normalized values —
`undefined` components included — rather than being treated as
unpaginated. -/
theorem c7_amended :
    (∀ (store : Store) (st : Registry) (coll : String) (q proj srt colla opts : Option Doc)
       (conn : String), conn ≠ "" →
       getData store st coll q false proj srt none false conn colla opts
         = ((getDbClient st conn).1
             ++ [Event.find coll
                  ⟨q.getD (Doc.obj []), Doc.obj [("projection", proj.getD (Doc.obj []))],
                   srt, none, colla⟩],
            (getDbClient st conn).2.1,
            Except.ok (GetDataResult.docs (store.findRes coll
              ⟨q.getD (Doc.obj []), Doc.obj [("projection", proj.getD (Doc.obj []))],
               srt, none, colla⟩)))) ∧
    (∀ (store : Store) (st : Registry) (coll : String) (q proj srt colla opts : Option Doc)
       (p : Pagination) (conn : String), conn ≠ "" →
       limitLtOne (parsePagination (some p)).2 = false →
       getData store st coll q false proj srt (some p) false conn colla opts
         = ((getDbClient st conn).1
             ++ [Event.find coll
                  ⟨q.getD (Doc.obj []), Doc.obj [("projection", proj.getD (Doc.obj []))],
                   srt, some (parsePagination (some p)), colla⟩],
            (getDbClient st conn).2.1,
            Except.ok (GetDataResult.docs (store.findRes coll
              ⟨q.getD (Doc.obj []), Doc.obj [("projection", proj.getD (Doc.obj []))],
               srt, some (parsePagination (some p)), colla⟩)))) := by
  constructor
  · intro store st coll q proj srt colla opts conn hconn
    rcases hg : getDbClient st conn with ⟨ev, st2, res⟩
    cases res with
    | error e =>
      have he : (getDbClient st conn).2.2 = Except.error e := by rw [hg]
      exact absurd he (getDbClient_ne_error st conn hconn e)
    | ok c => simp [getData, hg, parsePagination, clampStart, jsInteger, limitLtOne]
  · intro store st coll q proj srt colla opts p conn hconn hlim
    rcases hg : getDbClient st conn with ⟨ev, st2, res⟩
    cases res with
    | error e =>
      have he : (getDbClient st conn).2.2 = Except.error e := by rw [hg]
      exact absurd he (getDbClient_ne_error st conn hconn e)
    | ok c => simp [getData, hg, hlim]

/-- C7 witness: the amended statement applied to an absent pagination and
to the pagination `{startIndex:0.5, endIndex:3}` on an empty registry. -/
theorem c7_witness :
    getData store0 ⟨[], 0⟩ "c" none false none none none false "mongodb://a" none none
      = ((getDbClient ⟨[], 0⟩ "mongodb://a").1
          ++ [Event.find "c"
               ⟨Doc.obj [], Doc.obj [("projection", Doc.obj [])], none, none, none⟩],
         (getDbClient ⟨[], 0⟩ "mongodb://a").2.1,
         Except.ok (GetDataResult.docs (store0.findRes "c"
           ⟨Doc.obj [], Doc.obj [("projection", Doc.obj [])], none, none, none⟩))) ∧
    getData store0 ⟨[], 0⟩ "c" none false none none
        (some ⟨JNum.nonint true, JNum.int 3⟩) false "mongodb://a" none none
      = ((getDbClient ⟨[], 0⟩ "mongodb://a").1
          ++ [Event.find "c"
               ⟨Doc.obj [], Doc.obj [("projection", Doc.obj [])], none,
                some (parsePagination (some ⟨JNum.nonint true, JNum.int 3⟩)), none⟩],
         (getDbClient ⟨[], 0⟩ "mongodb://a").2.1,
         Except.ok (GetDataResult.docs (store0.findRes "c"
           ⟨Doc.obj [], Doc.obj [("projection", Doc.obj [])], none,
            some (parsePagination (some ⟨JNum.nonint true, JNum.int 3⟩)), none⟩))) :=
  ⟨c7_amended.1 store0 ⟨[], 0⟩ "c" none none none none none "mongodb://a" (by decide),
   c7_amended.2 store0 ⟨[], 0⟩ "c" none none none none none
     ⟨JNum.nonint true, JNum.int 3⟩ "mongodb://a" (by decide) (by decide)⟩

/-- C8 counterexample: a `search` with `isGetCount = true` whose pagination
resolves to `limit = 0` (`{startIndex:5, endIndex:3}`) returns the plain
empty array from the short-circuit, not a combined `{metadata, data}`
record — so "never an array ... including those whose pagination resolves
to limit = 0" is false. -/
theorem c8_counterexample :
    search store0 ⟨[], 0⟩ (some "mongodb://a") (some "items") (some (Doc.obj []))
        none none (some ⟨JNum.int 5, JNum.int 3⟩) true
      = ([], ⟨[], 0⟩, Except.ok (SearchResult.arr [])) ∧
    ∀ d, (search store0 ⟨[], 0⟩ (some "mongodb://a") (some "items") (some (Doc.obj []))
        none none (some ⟨JNum.int 5, JNum.int 3⟩) true).2.2
      ≠ Except.ok (SearchResult.single d) := by
  refine ⟨rfl, ?_⟩
  intro d h
  have h2 : (Except.ok (SearchResult.arr []) : Except String SearchResult)
      = Except.ok (SearchResult.single d) := h
  injection h2 with h3
  exact SearchResult.noConfusion h3

/-- C8 amended: when `isGetCount` is true and the pagination does not
resolve to `limit < 1`, `search` returns the single combined record
`result[0]` (the head of the aggregation result, `undefined` when it is
empty) and never an array; when the pagination resolves to `limit = 0` it
returns the plain empty array instead. -/
theorem c8_amended :
    ∀ (store : Store) (st : Registry) (cs cn : String) (sd : Doc)
      (proj srt : Option Doc) (p : Option Pagination),
      cs ≠ "" →
      limitLtOne (parsePagination p).2 = false →
      search store st (some cs) (some cn) (some sd) proj srt p true
        = ((getDbClient st cs).1
            ++ [Event.aggregate cn
                 (some (Doc.arr (searchPayload sd proj srt (parsePagination p).1
                   (parsePagination p).2 true))) none],
           (getDbClient st cs).2.1,
           Except.ok (SearchResult.single
             (store.aggRes cn
               (some (Doc.arr (searchPayload sd proj srt (parsePagination p).1
                 (parsePagination p).2 true))) none).head?)) := by
  intro store st cs cn sd proj srt p hcs hlim
  rcases hg : getDbClient st cs with ⟨ev, st2, res⟩
  cases res with
  | error e =>
    have he : (getDbClient st cs).2.2 = Except.error e := by rw [hg]
    exact absurd he (getDbClient_ne_error st cs hcs e)
  | ok c => simp [search, getData, hg, hlim]

/-- C8 witness: the amended statement applied to a search without
pagination on an empty registry. -/
theorem c8_witness :
    search store0 ⟨[], 0⟩ (some "mongodb://a") (some "items") (some (Doc.obj []))
        none none none true
      = ((getDbClient ⟨[], 0⟩ "mongodb://a").1
          ++ [Event.aggregate "items"
               (some (Doc.arr (searchPayload (Doc.obj []) none none
                 (parsePagination none).1 (parsePagination none).2 true))) none],
         (getDbClient ⟨[], 0⟩ "mongodb://a").2.1,
         Except.ok (SearchResult.single
           (store0.aggRes "items"
             (some (Doc.arr (searchPayload (Doc.obj []) none none
               (parsePagination none).1 (parsePagination none).2 true))) none).head?)) :=
  c8_amended store0 ⟨[], 0⟩ "mongodb://a" "items" (Doc.obj []) none none none
    (by decide) (by decide)

/-- C9 (bug evidence): the static `getCollectionCount` acquires the client
and issues `estimatedDocumentCount`, while the instance form — whose body
is `MongoDBOps.getData(collectionName, this.connString)` — puts the bound
connection string in the query position and passes no connection string at
all, so it always fails with `missing-connection-string` instead of being
the static method partially applied to the bound context. -/
theorem c9_instance_count_broken :
    getCollectionCount store0 ⟨[], 0⟩ "users" "mongodb://x"
      = ([Event.connect "mongodb://x" 0, Event.estimatedCount "users"],
         ⟨[⟨"mongodb://x", true, 0⟩], 1⟩, Except.ok 7) ∧
    getCollectionCountInstance store0 ⟨[], 0⟩ "mongodb://x" "users"
      = ([], ⟨[], 0⟩, Except.error "missing-connection-string") := ⟨rfl, rfl⟩

/-- C10: for every recognized bulk kind other than `allBulk`, the caller's
docs array has, on return of `writeBulkData` (whatever the store's
`bulkWrite` answered, since the wrapping happens before the store call),
each element replaced by its wrapped single-operation descriptor; `allBulk`
leaves the array unchanged. -/
theorem c10_bulk_wrap_in_place :
    ∀ (store : Store) (st : Registry) (ty coll : String) (docs : List Doc)
      (ord : Bool) (conn : String), conn ≠ "" →
      (ty ∈ (["insertBulk", "replaceBulk", "updateBulk", "deleteBulk"] : List String) →
        (writeBulkData store st ty coll docs ord conn).2.2.1
          = docs.map (wrapBulkOne ty)) ∧
      (writeBulkData store st "allBulk" coll docs ord conn).2.2.1 = docs := by
  intro store st ty coll docs ord conn hconn
  rcases hg : getDbClient st conn with ⟨ev, st2, res⟩
  cases res with
  | error e =>
    have he : (getDbClient st conn).2.2 = Except.error e := by rw [hg]
    exact absurd he (getDbClient_ne_error st conn hconn e)
  | ok c =>
    constructor
    · intro hty
      simp only [List.mem_cons, List.not_mem_nil, or_false] at hty
      rcases hty with h | h | h | h <;> subst h <;>
        simp [writeBulkData, hg, wrapBulkOne]
    · simp [writeBulkData, hg]

/-- C10 witness: the wrapping applied to a two-element insert bulk and to
an `allBulk` on an empty registry. -/
theorem c10_witness :
    (writeBulkData store0 ⟨[], 0⟩ "insertBulk" "c" [Doc.num 1, Doc.num 2] false
        "mongodb://a").2.2.1
      = [Doc.obj [("insertOne", Doc.obj [("document", Doc.num 1)])],
         Doc.obj [("insertOne", Doc.obj [("document", Doc.num 2)])]] ∧
    (writeBulkData store0 ⟨[], 0⟩ "allBulk" "c" [Doc.num 1, Doc.num 2] false
        "mongodb://a").2.2.1
      = [Doc.num 1, Doc.num 2] :=
  ⟨(c10_bulk_wrap_in_place store0 ⟨[], 0⟩ "insertBulk" "c" [Doc.num 1, Doc.num 2] false
      "mongodb://a" (by decide)).1 (by decide),
   (c10_bulk_wrap_in_place store0 ⟨[], 0⟩ "allBulk" "c" [Doc.num 1, Doc.num 2] false
      "mongodb://a" (by decide)).2⟩

end MongoDBOps
